import Mathlib

/-!
Shallow embedding of the StreamPay streaming-payment contract
(src/contracts/StreamPay.sol) and proofs about its operations.

Modelling conventions:
* Addresses, token identifiers and bytes4 function selectors are `Nat`
  (0 is the zero address).  `block.timestamp` is an explicit `now : Nat`
  argument to every operation.
* Solidity 0.8 checked arithmetic: every subtraction that the source
  performs on `uint256` goes through `sub?`, which returns `none` when
  the subtraction would revert on underflow.
* A reverting call is modelled as `Except.error e`; a revert leaves the
  state unchanged (see `applyAct`).
* Token movements through the ERC20 port are recorded in two ghost
  fields, `paidToRecipient` and `paidToSender`, keyed by stream id: the
  cumulative amounts pushed out of the contract for that stream.  The
  pull at creation is modelled by the `pullOk` flag (the port may
  decline); a push that fails reverts the whole call, which coincides
  with the act never happening, so successful pushes are recorded.
-/

namespace StreamPay

/-- The `Stream` struct of the contract. -/
structure Stream where
  sender : Nat
  recipient : Nat
  tokenAddress : Nat
  startTime : Nat
  stopTime : Nat
  deposit : Nat
  ratePerSecond : Nat
  remaining : Nat
  isActive : Bool
deriving DecidableEq, Repr

/-- Solidity default value of the `Stream` struct (all fields zero). -/
def defaultStream : Stream :=
  ⟨0, 0, 0, 0, 0, 0, 0, 0, false⟩

/-- Contract storage: the streams mapping, the delegation mapping, the
id counter, the contract address (for the `recipient != address(this)`
check) and the two ghost payout accumulators. -/
structure State where
  thisAddr : Nat
  streams : Nat → Stream
  delegateAuths : Nat → Nat → Nat → Bool
  nextStreamId : Nat
  paidToRecipient : Nat → Nat
  paidToSender : Nat → Nat

/-- Selector of `createStreamOnBehalf` (an opaque distinct constant). -/
def createStreamOnBehalfSelector : Nat := 161

/-- Selector of `withdrawFromStreamOnBehalf`. -/
def withdrawFromStreamOnBehalfSelector : Nat := 162

/-- Selector of `cancelStreamOnBehalf`. -/
def cancelStreamOnBehalfSelector : Nat := 163

/-- Checked `uint256` subtraction: `none` models a revert on underflow. -/
def sub? (a b : Nat) : Option Nat :=
  if b ≤ a then some (a - b) else none

/-- Point update of a `Nat`-indexed map. -/
def pointUpd {A : Type} (f : Nat → A) (id : Nat) (v : A) : Nat → A :=
  fun i => if i = id then v else f i

/-- Point update of the three-key delegation mapping. -/
def setAuth (f : Nat → Nat → Nat → Bool) (a b c : Nat) (v : Bool) :
    Nat → Nat → Nat → Bool :=
  fun x y z => if x = a ∧ y = b ∧ z = c then v else f x y z

/-- The revert reasons of the contract (one per `require` plus the
implicit checked-arithmetic revert). -/
inductive Err where
  | recipientZero
  | recipientIsContract
  | recipientIsSender
  | depositZero
  | startBeforeNow
  | stopBeforeStart
  | depositBelowDuration
  | transferFailed
  | notAuthorized
  | streamNotActive
  | callerNotRecipient
  | nothingToWithdraw
  | amountExceedsWithdrawable
  | callerNotSenderOrRecipient
  | streamAlreadyActive
  | onlySenderCanResume
  | noFundsLeft
  | recipientMismatch
  | senderMismatch
  | delegateZero
  | underflow
deriving DecidableEq, Repr

/-- `isAuthorizedDelegate(delegator, delegate, functionSelector)`. -/
def isAuthorizedDelegate (s : State) (delegator delegate sel : Nat) : Bool :=
  s.delegateAuths delegator delegate sel

/-- `authorizeDelegate(delegate, functionSelector)` called by `caller`. -/
def authorizeDelegate (s : State) (caller delegate sel : Nat) :
    Except Err State :=
  if delegate = 0 then .error .delegateZero
  else .ok { s with
    delegateAuths := setAuth s.delegateAuths caller delegate sel true }

/-- `revokeDelegate(delegate, functionSelector)` called by `caller`
(never reverts). -/
def revokeDelegate (s : State) (caller delegate sel : Nat) : State :=
  { s with
    delegateAuths := setAuth s.delegateAuths caller delegate sel false }

/-- `_createStream`: validations, rate computation, pull of the deposit
(`pullOk` is whether `safeTransferFrom` succeeds), record allocation. -/
def createStreamCore (s : State) (now sender recipient deposit
    tokenAddress startTime stopTime : Nat) (pullOk : Bool) :
    Except Err (State × Nat) :=
  if recipient = 0 then .error .recipientZero
  else if recipient = s.thisAddr then .error .recipientIsContract
  else if recipient = sender then .error .recipientIsSender
  else if deposit = 0 then .error .depositZero
  else if startTime < now then .error .startBeforeNow
  else if ¬ startTime < stopTime then .error .stopBeforeStart
  else
    let duration := stopTime - startTime
    if deposit < duration then .error .depositBelowDuration
    else
      let ratePerSecond := deposit / duration
      if pullOk = false then .error .transferFailed
      else
        let streamId := s.nextStreamId
        let newStream : Stream :=
          ⟨sender, recipient, tokenAddress, startTime, stopTime,
           deposit, ratePerSecond, deposit, true⟩
        .ok ({ s with
               nextStreamId := s.nextStreamId + 1
               streams := pointUpd s.streams streamId newStream },
             streamId)

/-- `createStream` (external): `msg.sender` funds the stream. -/
def createStream (s : State) (now caller recipient deposit tokenAddress
    startTime stopTime : Nat) (pullOk : Bool) : Except Err (State × Nat) :=
  createStreamCore s now caller recipient deposit tokenAddress
    startTime stopTime pullOk

/-- `createStreamOnBehalf` (external): checks the delegation grant of
`sender` for the caller, then behaves as `_createStream`. -/
def createStreamOnBehalf (s : State) (now caller sender recipient deposit
    tokenAddress startTime stopTime : Nat) (pullOk : Bool) :
    Except Err (State × Nat) :=
  if isAuthorizedDelegate s sender caller createStreamOnBehalfSelector
       = false then .error .notAuthorized
  else
    createStreamCore s now sender recipient deposit tokenAddress
      startTime stopTime pullOk

/-- `withdrawableAmount(streamId)` at time `now`.  Returns `none` when
the final checked subtraction would revert (the view has no guard
against `earned` falling below the already-disbursed amount). -/
def withdrawableAmount (s : State) (streamId now : Nat) : Option Nat :=
  let stream := s.streams streamId
  if stream.isActive = false ∨ now < stream.startTime then some 0
  else
    match (if stream.stopTime ≤ now
           then sub? stream.stopTime stream.startTime
           else sub? now stream.startTime) with
    | none => none
    | some elapsedTime =>
      let earned := elapsedTime * stream.ratePerSecond
      let withdrawable :=
        if stream.deposit < earned then stream.deposit else earned
      match sub? stream.deposit stream.remaining with
      | none => none
      | some disbursed => sub? withdrawable disbursed

/-- `_withdrawFromStream(streamId, recipient, amount)`. -/
def withdrawFromStreamCore (s : State) (now streamId recipient amount : Nat) :
    Except Err State :=
  let stream := s.streams streamId
  if stream.isActive = false then .error .streamNotActive
  else if ¬ stream.recipient = recipient then .error .callerNotRecipient
  else
    match withdrawableAmount s streamId now with
    | none => .error .underflow
    | some w =>
      if w = 0 then .error .nothingToWithdraw
      else
        let withdrawAmount := if amount = 0 then w else amount
        if ¬ withdrawAmount ≤ w then .error .amountExceedsWithdrawable
        else
          match sub? stream.remaining withdrawAmount with
          | none => .error .underflow
          | some newRemaining =>
            let newIsActive :=
              if stream.stopTime ≤ now ∨ newRemaining = 0 then false
              else stream.isActive
            let newStream :=
              { stream with remaining := newRemaining
                            isActive := newIsActive }
            .ok { s with
                  streams := pointUpd s.streams streamId newStream
                  paidToRecipient := pointUpd s.paidToRecipient streamId
                    (s.paidToRecipient streamId + withdrawAmount) }

/-- `withdrawFromStream` (external): the caller must be the recipient. -/
def withdrawFromStream (s : State) (now caller streamId amount : Nat) :
    Except Err State :=
  withdrawFromStreamCore s now streamId caller amount

/-- `withdrawFromStreamOnBehalf` (external). -/
def withdrawFromStreamOnBehalf (s : State) (now caller streamId recipient
    amount : Nat) : Except Err State :=
  if ¬ (s.streams streamId).recipient = recipient then
    .error .recipientMismatch
  else if isAuthorizedDelegate s recipient caller
      withdrawFromStreamOnBehalfSelector = false then .error .notAuthorized
  else withdrawFromStreamCore s now streamId recipient amount

/-- `_cancelStream(streamId, caller)`.  The source writes
`stream.isActive = false` to storage before computing
`recipientAmount`, and `withdrawableAmount` re-reads the (now inactive)
record from storage; the intermediate state `s1` reproduces that. -/
def cancelStreamCore (s : State) (now streamId caller : Nat) :
    Except Err State :=
  let stream := s.streams streamId
  if stream.isActive = false then .error .streamNotActive
  else if ¬ (stream.sender = caller ∨ stream.recipient = caller) then
    .error .callerNotSenderOrRecipient
  else
    let s1 := { s with
      streams := pointUpd s.streams streamId
        { stream with isActive := false } }
    match (if stream.startTime < now
           then withdrawableAmount s1 streamId now
           else some 0) with
    | none => .error .underflow
    | some recipientAmount =>
      match sub? stream.remaining recipientAmount with
      | none => .error .underflow
      | some senderRefund =>
        .ok { s1 with
              streams := pointUpd s1.streams streamId
                { stream with isActive := false, remaining := 0 }
              paidToRecipient := pointUpd s1.paidToRecipient streamId
                (s1.paidToRecipient streamId + recipientAmount)
              paidToSender := pointUpd s1.paidToSender streamId
                (s1.paidToSender streamId + senderRefund) }

/-- `cancelStream` (external). -/
def cancelStream (s : State) (now caller streamId : Nat) : Except Err State :=
  cancelStreamCore s now streamId caller

/-- `cancelStreamOnBehalf` (external): after the grant check the core
runs with the stream sender as the caller. -/
def cancelStreamOnBehalf (s : State) (now caller streamId sender : Nat) :
    Except Err State :=
  if ¬ (s.streams streamId).sender = sender then .error .senderMismatch
  else if isAuthorizedDelegate s sender caller
      cancelStreamOnBehalfSelector = false then .error .notAuthorized
  else cancelStreamCore s now streamId sender

/-- `pauseStream(streamId)` called by `caller` at time `now`: settles
the currently withdrawable amount to the recipient, stashes the
remaining duration in the `stopTime` field and deactivates. -/
def pauseStream (s : State) (now caller streamId : Nat) : Except Err State :=
  let stream := s.streams streamId
  if stream.isActive = false then .error .streamNotActive
  else if ¬ (stream.sender = caller ∨ stream.recipient = caller) then
    .error .callerNotSenderOrRecipient
  else
    match withdrawableAmount s streamId now with
    | none => .error .underflow
    | some w =>
      match sub? stream.remaining w with
      | none => .error .underflow
      | some newRemaining =>
        let timeRemaining :=
          if now < stream.stopTime then stream.stopTime - now else 0
        let newStream :=
          { stream with remaining := newRemaining
                        stopTime := timeRemaining
                        isActive := false }
        .ok { s with
              streams := pointUpd s.streams streamId newStream
              paidToRecipient := pointUpd s.paidToRecipient streamId
                (s.paidToRecipient streamId + w) }

/-- `resumeStream(streamId)` called by `caller` at time `now`: restores
the window from the stashed duration and reactivates.  The only checks
are inactivity, the caller being the sender, and `remaining > 0`. -/
def resumeStream (s : State) (now caller streamId : Nat) : Except Err State :=
  let stream := s.streams streamId
  if stream.isActive = true then .error .streamAlreadyActive
  else if ¬ stream.sender = caller then .error .onlySenderCanResume
  else if stream.remaining = 0 then .error .noFundsLeft
  else
    let timeRemaining := stream.stopTime
    let newStream :=
      { stream with startTime := now
                    stopTime := now + timeRemaining
                    isActive := true }
    .ok { s with streams := pointUpd s.streams streamId newStream }

/-- `getStreamBasicInfo(streamId)`. -/
def getStreamBasicInfo (s : State) (streamId : Nat) :
    Nat × Nat × Nat × Nat × Nat × Bool :=
  let stream := s.streams streamId
  (stream.sender, stream.recipient, stream.tokenAddress,
   stream.deposit, stream.remaining, stream.isActive)

/-- One public transaction with its arguments (`msg.sender` first). -/
inductive Act where
  | create (caller recipient deposit tokenAddress startTime stopTime : Nat)
      (pullOk : Bool)
  | createOB (caller sender recipient deposit tokenAddress
      startTime stopTime : Nat) (pullOk : Bool)
  | withdraw (caller streamId amount : Nat)
  | withdrawOB (caller streamId recipient amount : Nat)
  | cancel (caller streamId : Nat)
  | cancelOB (caller streamId sender : Nat)
  | pause (caller streamId : Nat)
  | resume (caller streamId : Nat)
  | auth (caller delegate sel : Nat)
  | revoke (caller delegate sel : Nat)
deriving DecidableEq, Repr

/-- Effect of one transaction at time `now`; a reverted transaction
leaves the state unchanged. -/
def applyAct (s : State) (now : Nat) (a : Act) : State :=
  match a with
  | .create c r d tok st sp p =>
    match createStream s now c r d tok st sp p with
    | .ok r2 => r2.1
    | .error _ => s
  | .createOB c sd r d tok st sp p =>
    match createStreamOnBehalf s now c sd r d tok st sp p with
    | .ok r2 => r2.1
    | .error _ => s
  | .withdraw c id amt =>
    match withdrawFromStream s now c id amt with
    | .ok s2 => s2
    | .error _ => s
  | .withdrawOB c id r amt =>
    match withdrawFromStreamOnBehalf s now c id r amt with
    | .ok s2 => s2
    | .error _ => s
  | .cancel c id =>
    match cancelStream s now c id with
    | .ok s2 => s2
    | .error _ => s
  | .cancelOB c id sd =>
    match cancelStreamOnBehalf s now c id sd with
    | .ok s2 => s2
    | .error _ => s
  | .pause c id =>
    match pauseStream s now c id with
    | .ok s2 => s2
    | .error _ => s
  | .resume c id =>
    match resumeStream s now c id with
    | .ok s2 => s2
    | .error _ => s
  | .auth c dg sel =>
    match authorizeDelegate s c dg sel with
    | .ok s2 => s2
    | .error _ => s
  | .revoke c dg sel => revokeDelegate s c dg sel

/-- Run a list of timestamped transactions from a state. -/
def run (s : State) : List (Nat × Act) → State
  | [] => s
  | (now, a) :: rest => run (applyAct s now a) rest

/-- Deployment state: empty mappings, `_nextStreamId = 1`. -/
def initState (a : Nat) : State :=
  { thisAddr := a
    streams := fun _ => defaultStream
    delegateAuths := fun _ _ _ => false
    nextStreamId := 1
    paidToRecipient := fun _ => 0
    paidToSender := fun _ => 0 }

/-- The ledger invariant maintained by every transaction:
the id counter stays positive, ids never yet allocated hold the default
record with zero ghost payouts, and for every id the total pushed out
plus the remaining balance equals the recorded deposit. -/
def Inv (s : State) : Prop :=
  1 ≤ s.nextStreamId ∧
  (∀ id, id = 0 ∨ s.nextStreamId ≤ id →
    s.streams id = defaultStream ∧
    s.paidToRecipient id = 0 ∧ s.paidToSender id = 0) ∧
  (∀ id, s.paidToRecipient id + s.paidToSender id +
    (s.streams id).remaining = (s.streams id).deposit)

/-! ## Basic lemmas -/

theorem sub?_some {a b c : Nat} (h : sub? a b = some c) :
    b ≤ a ∧ c = a - b := by
  unfold sub? at h
  split at h
  · exact ⟨by assumption, by injection h with h1; omega⟩
  · exact absurd h (by simp)

theorem sub?_of_le {a b : Nat} (h : b ≤ a) : sub? a b = some (a - b) := by
  unfold sub?
  simp [h]

theorem pointUpd_same {A : Type} (f : Nat → A) (id : Nat) (v : A) :
    pointUpd f id v id = v := by
  simp [pointUpd]

theorem pointUpd_other {A : Type} (f : Nat → A) (id j : Nat) (v : A)
    (h : ¬ j = id) : pointUpd f id v j = f j := by
  simp [pointUpd, h]

/-- What every transaction preserves: the ledger invariant, the
monotonicity of the id counter, and the deposit recorded for every
already-allocated stream id. -/
def Preserves (s s2 : State) : Prop :=
  (Inv s → Inv s2) ∧
  s.nextStreamId ≤ s2.nextStreamId ∧
  (∀ id, id < s.nextStreamId →
    (s2.streams id).deposit = (s.streams id).deposit)

theorem preserves_rfl (s : State) : Preserves s s :=
  ⟨fun h => h, Nat.le_refl _, fun _ _ => rfl⟩

theorem preserves_trans {s t u : State} (h1 : Preserves s t)
    (h2 : Preserves t u) : Preserves s u := by
  refine ⟨fun hi => h2.1 (h1.1 hi), Nat.le_trans h1.2.1 h2.2.1, ?_⟩
  intro id hid
  rw [h2.2.2 id (Nat.lt_of_lt_of_le hid h1.2.1), h1.2.2 id hid]

theorem createStreamCore_preserves (s : State) (now sd rc d tok st sp : Nat)
    (p : Bool) (s2 : State) (retId : Nat)
    (h : createStreamCore s now sd rc d tok st sp p = .ok (s2, retId)) :
    Preserves s s2 := by
  simp only [createStreamCore] at h
  split_ifs at h
  injection h with h1
  injection h1 with h1 h2
  subst h1
  refine ⟨?_, by simp, ?_⟩
  · rintro ⟨hn, hfresh, hcons⟩
    refine ⟨Nat.le_succ_of_le hn, ?_, ?_⟩
    · intro id hid
      have hne : ¬ id = s.nextStreamId := by
        rcases hid with h0 | hge
        · omega
        · simp at hge; omega
      have hold : id = 0 ∨ s.nextStreamId ≤ id := by
        rcases hid with h0 | hge
        · exact Or.inl h0
        · simp at hge; exact Or.inr (by omega)
      simpa [pointUpd_other _ _ _ _ hne] using hfresh id hold
    · intro id
      by_cases hid : id = s.nextStreamId
      · subst hid
        have := (hfresh s.nextStreamId (Or.inr (Nat.le_refl _))).2
        simp [pointUpd_same, this.1, this.2]
      · simpa [pointUpd_other _ _ _ _ hid] using hcons id
  · intro id hid
    have hne : ¬ id = s.nextStreamId := by omega
    simp [pointUpd_other _ _ _ _ hne]

theorem withdrawFromStreamCore_preserves (s : State)
    (now streamId recipient amount : Nat) (s2 : State)
    (h : withdrawFromStreamCore s now streamId recipient amount = .ok s2) :
    Preserves s s2 := by
  simp only [withdrawFromStreamCore] at h
  rcases hw : withdrawableAmount s streamId now with _ | w <;>
    simp only [hw] at h
  · split_ifs at h
  generalize hwa : (if amount = 0 then w else amount) = wa at h
  split_ifs at h with hact hrec hw0 hle
  rcases hs : sub? (s.streams streamId).remaining wa with _ | nr <;>
    simp only [hs] at h
  · exact Except.noConfusion h
  injection h with h1
  subst h1
  obtain ⟨hle2, hnr⟩ := sub?_some hs
  refine ⟨?_, by simp, ?_⟩
  · rintro ⟨hn, hfresh, hcons⟩
    refine ⟨by simpa using hn, ?_, ?_⟩
    · intro id hid
      by_cases heq : id = streamId
      · subst heq
        exact absurd (by rw [(hfresh id hid).1]; rfl) hact
      · simpa [pointUpd_other _ _ _ _ heq] using hfresh id hid
    · intro id
      by_cases heq : id = streamId
      · subst heq
        have := hcons id
        simp only [pointUpd_same]
        omega
      · simpa [pointUpd_other _ _ _ _ heq] using hcons id
  · intro id hid
    by_cases heq : id = streamId
    · subst heq
      simp [pointUpd_same]
    · simp [pointUpd_other _ _ _ _ heq]

theorem pauseStream_preserves (s : State) (now caller streamId : Nat)
    (s2 : State) (h : pauseStream s now caller streamId = .ok s2) :
    Preserves s s2 := by
  simp only [pauseStream] at h
  rcases hw : withdrawableAmount s streamId now with _ | w <;>
    simp only [hw] at h
  · split_ifs at h
  generalize (if now < (s.streams streamId).stopTime
      then (s.streams streamId).stopTime - now else 0) = timeRem at h
  split_ifs at h with hact hcaller
  rcases hs : sub? (s.streams streamId).remaining w with _ | nr <;>
    simp only [hs] at h
  · exact Except.noConfusion h
  injection h with h1
  subst h1
  obtain ⟨hle2, hnr⟩ := sub?_some hs
  refine ⟨?_, by simp, ?_⟩
  · rintro ⟨hn, hfresh, hcons⟩
    refine ⟨by simpa using hn, ?_, ?_⟩
    · intro id hid
      by_cases heq : id = streamId
      · subst heq
        exact absurd (by rw [(hfresh id hid).1]; rfl) hact
      · simpa [pointUpd_other _ _ _ _ heq] using hfresh id hid
    · intro id
      by_cases heq : id = streamId
      · subst heq
        have := hcons id
        simp only [pointUpd_same]
        omega
      · simpa [pointUpd_other _ _ _ _ heq] using hcons id
  · intro id hid
    by_cases heq : id = streamId
    · subst heq
      simp [pointUpd_same]
    · simp [pointUpd_other _ _ _ _ heq]

theorem resumeStream_preserves (s : State) (now caller streamId : Nat)
    (s2 : State) (h : resumeStream s now caller streamId = .ok s2) :
    Preserves s s2 := by
  simp only [resumeStream] at h
  split_ifs at h with hact hsend hrem
  injection h with h1
  subst h1
  refine ⟨?_, by simp, ?_⟩
  · rintro ⟨hn, hfresh, hcons⟩
    refine ⟨by simpa using hn, ?_, ?_⟩
    · intro id hid
      by_cases heq : id = streamId
      · subst heq
        exact absurd (by rw [(hfresh id hid).1]; rfl) hrem
      · simpa [pointUpd_other _ _ _ _ heq] using hfresh id hid
    · intro id
      by_cases heq : id = streamId
      · subst heq
        have := hcons id
        simp only [pointUpd_same]
        omega
      · simpa [pointUpd_other _ _ _ _ heq] using hcons id
  · intro id hid
    by_cases heq : id = streamId
    · subst heq
      simp [pointUpd_same]
    · simp [pointUpd_other _ _ _ _ heq]

theorem cancel_ok_preserves (s : State) (streamId ra sr : Nat)
    (hact : ¬ (s.streams streamId).isActive = false)
    (hsr : sub? (s.streams streamId).remaining ra = some sr) :
    Preserves s { s with
      streams := pointUpd (pointUpd s.streams streamId
          { s.streams streamId with isActive := false }) streamId
          { s.streams streamId with isActive := false, remaining := 0 }
      paidToRecipient := pointUpd s.paidToRecipient streamId
          (s.paidToRecipient streamId + ra)
      paidToSender := pointUpd s.paidToSender streamId
          (s.paidToSender streamId + sr) } := by
  obtain ⟨hle2, hsr2⟩ := sub?_some hsr
  refine ⟨?_, by simp, ?_⟩
  · rintro ⟨hn, hfresh, hcons⟩
    refine ⟨by simpa using hn, ?_, ?_⟩
    · intro id hid
      by_cases heq : id = streamId
      · subst heq
        exact absurd (by rw [(hfresh id hid).1]; rfl) hact
      · simpa [pointUpd, heq] using hfresh id hid
    · intro id
      by_cases heq : id = streamId
      · subst heq
        have := hcons id
        simp only [pointUpd_same]
        simp [pointUpd]
        omega
      · simpa [pointUpd, heq] using hcons id
  · intro id hid
    by_cases heq : id = streamId
    · subst heq
      simp [pointUpd]
    · simp [pointUpd, heq]

theorem cancelStreamCore_preserves (s : State) (now streamId caller : Nat)
    (s2 : State) (h : cancelStreamCore s now streamId caller = .ok s2) :
    Preserves s s2 := by
  simp only [cancelStreamCore] at h
  split_ifs at h with hact hcaller htime
  · split at h
    · exact Except.noConfusion h
    split at h
    · exact Except.noConfusion h
    rename_i sr hsr
    injection h with h1
    exact h1 ▸ cancel_ok_preserves s streamId _ sr hact hsr
  · split at h
    · exact Except.noConfusion h
    split at h
    · exact Except.noConfusion h
    rename_i sr hsr
    injection h with h1
    exact h1 ▸ cancel_ok_preserves s streamId _ sr hact hsr

theorem applyAct_preserves (s : State) (now : Nat) (a : Act) :
    Preserves s (applyAct s now a) := by
  cases a with
  | create c r d tok st sp p =>
    simp only [applyAct]
    cases hop : createStream s now c r d tok st sp p with
    | ok r2 =>
      exact createStreamCore_preserves s now c r d tok st sp p r2.1 r2.2 hop
    | error e => exact preserves_rfl s
  | createOB c sd r d tok st sp p =>
    simp only [applyAct]
    cases hop : createStreamOnBehalf s now c sd r d tok st sp p with
    | ok r2 =>
      refine createStreamCore_preserves s now sd r d tok st sp p r2.1 r2.2 ?_
      simp only [createStreamOnBehalf] at hop
      split_ifs at hop
      exact hop
    | error e => exact preserves_rfl s
  | withdraw c id amt =>
    simp only [applyAct]
    cases hop : withdrawFromStream s now c id amt with
    | ok s2 => exact withdrawFromStreamCore_preserves s now id c amt s2 hop
    | error e => exact preserves_rfl s
  | withdrawOB c id r amt =>
    simp only [applyAct]
    cases hop : withdrawFromStreamOnBehalf s now c id r amt with
    | ok s2 =>
      refine withdrawFromStreamCore_preserves s now id r amt s2 ?_
      simp only [withdrawFromStreamOnBehalf] at hop
      split_ifs at hop
      exact hop
    | error e => exact preserves_rfl s
  | cancel c id =>
    simp only [applyAct]
    cases hop : cancelStream s now c id with
    | ok s2 => exact cancelStreamCore_preserves s now id c s2 hop
    | error e => exact preserves_rfl s
  | cancelOB c id sd =>
    simp only [applyAct]
    cases hop : cancelStreamOnBehalf s now c id sd with
    | ok s2 =>
      refine cancelStreamCore_preserves s now id sd s2 ?_
      simp only [cancelStreamOnBehalf] at hop
      split_ifs at hop
      exact hop
    | error e => exact preserves_rfl s
  | pause c id =>
    simp only [applyAct]
    cases hop : pauseStream s now c id with
    | ok s2 => exact pauseStream_preserves s now c id s2 hop
    | error e => exact preserves_rfl s
  | resume c id =>
    simp only [applyAct]
    cases hop : resumeStream s now c id with
    | ok s2 => exact resumeStream_preserves s now c id s2 hop
    | error e => exact preserves_rfl s
  | auth c dg sel =>
    simp only [applyAct]
    cases hop : authorizeDelegate s c dg sel with
    | ok s2 =>
      simp only [authorizeDelegate] at hop
      split_ifs at hop
      injection hop with h1
      subst h1
      exact ⟨fun hi => hi, Nat.le_refl _, fun _ _ => rfl⟩
    | error e => exact preserves_rfl s
  | revoke c dg sel =>
    exact ⟨fun hi => hi, Nat.le_refl _, fun _ _ => rfl⟩

theorem run_preserves (s : State) (tr : List (Nat × Act)) :
    Preserves s (run s tr) := by
  induction tr generalizing s with
  | nil => exact preserves_rfl s
  | cons p rest ih =>
    exact preserves_trans (applyAct_preserves s p.1 p.2)
      (ih (applyAct s p.1 p.2))

theorem inv_initState (a : Nat) : Inv (initState a) := by
  refine ⟨Nat.le_refl _, ?_, ?_⟩
  · intro id _
    exact ⟨rfl, rfl, rfl⟩
  · intro id
    rfl

theorem inv_run (a : Nat) (tr : List (Nat × Act)) :
    Inv (run (initState a) tr) :=
  (run_preserves (initState a) tr).1 (inv_initState a)

theorem withdrawableAmount_le_remaining (s : State) (streamId now w : Nat)
    (h : withdrawableAmount s streamId now = some w) :
    w ≤ (s.streams streamId).remaining := by
  simp only [withdrawableAmount] at h
  split_ifs at h with h1 h2
  · injection h with h3
    omega
  · split at h
    · exact Option.noConfusion h
    · rename_i elapsed helapsed
      split at h
      · exact Option.noConfusion h
      · rename_i disbursed hdis
        obtain ⟨hd1, hd2⟩ := sub?_some hdis
        obtain ⟨hw1, hw2⟩ := sub?_some h
        have hble : (if (s.streams streamId).deposit <
              elapsed * (s.streams streamId).ratePerSecond
            then (s.streams streamId).deposit
            else elapsed * (s.streams streamId).ratePerSecond) ≤
            (s.streams streamId).deposit := by
          split <;> omega
        omega
  · split at h
    · exact Option.noConfusion h
    · rename_i elapsed helapsed
      split at h
      · exact Option.noConfusion h
      · rename_i disbursed hdis
        obtain ⟨hd1, hd2⟩ := sub?_some hdis
        obtain ⟨hw1, hw2⟩ := sub?_some h
        have hble : (if (s.streams streamId).deposit <
              elapsed * (s.streams streamId).ratePerSecond
            then (s.streams streamId).deposit
            else elapsed * (s.streams streamId).ratePerSecond) ≤
            (s.streams streamId).deposit := by
          split <;> omega
        omega

theorem createStreamCore_ok_of_valid (s : State) (now sender recipient
    deposit tok startTime stopTime : Nat) (pullOk : Bool)
    (h1 : ¬ recipient = 0) (h2 : ¬ recipient = s.thisAddr)
    (h3 : ¬ recipient = sender) (h4 : 0 < deposit) (h5 : now ≤ startTime)
    (h6 : startTime < stopTime) (h7 : stopTime - startTime ≤ deposit)
    (h8 : pullOk = true) :
    createStreamCore s now sender recipient deposit tok startTime stopTime
      pullOk = .ok ({ s with
        nextStreamId := s.nextStreamId + 1
        streams := pointUpd s.streams s.nextStreamId
          ⟨sender, recipient, tok, startTime, stopTime, deposit,
           deposit / (stopTime - startTime), deposit, true⟩ },
      s.nextStreamId) := by
  have n4 : ¬ deposit = 0 := by omega
  have n5 : ¬ startTime < now := by omega
  have n6 : ¬ ¬ startTime < stopTime := not_not_intro h6
  have n7 : ¬ deposit < stopTime - startTime := by omega
  have n8 : ¬ pullOk = false := by simp [h8]
  simp only [createStreamCore]
  rw [if_neg h1, if_neg h2, if_neg h3, if_neg n4, if_neg n5, if_neg n6,
      if_neg n7, if_neg n8]

theorem withdrawFromStreamCore_frame (s : State)
    (now streamId recipient amount : Nat) (s2 : State)
    (h : withdrawFromStreamCore s now streamId recipient amount = .ok s2)
    (id : Nat) :
    (s2.streams id).sender = (s.streams id).sender ∧
    (s2.streams id).recipient = (s.streams id).recipient ∧
    (s2.streams id).tokenAddress = (s.streams id).tokenAddress ∧
    (s2.streams id).deposit = (s.streams id).deposit ∧
    (s2.streams id).startTime = (s.streams id).startTime ∧
    (s2.streams id).stopTime = (s.streams id).stopTime ∧
    (s2.streams id).ratePerSecond = (s.streams id).ratePerSecond := by
  simp only [withdrawFromStreamCore] at h
  rcases hw : withdrawableAmount s streamId now with _ | w <;>
    simp only [hw] at h
  · split_ifs at h
  generalize hwa : (if amount = 0 then w else amount) = wa at h
  split_ifs at h with hact hrec hw0 hle
  rcases hs : sub? (s.streams streamId).remaining wa with _ | nr <;>
    simp only [hs] at h
  · exact Except.noConfusion h
  injection h with h1
  subst h1
  by_cases heq : id = streamId
  · subst heq
    simp [pointUpd]
  · simp [pointUpd, heq]

theorem createStreamOnBehalf_of_auth (s : State) (now caller sender
    recipient deposit tok startTime stopTime : Nat) (pullOk : Bool)
    (h : isAuthorizedDelegate s sender caller createStreamOnBehalfSelector
      = true) :
    createStreamOnBehalf s now caller sender recipient deposit tok
        startTime stopTime pullOk =
      createStreamCore s now sender recipient deposit tok startTime
        stopTime pullOk := by
  simp [createStreamOnBehalf, h]

/-! ## Claim theorems -/

/-- Claim C2.  For every deployment address, every trace of public
transactions `tr1` and every continuation trace `tr2`, and every stream
id already allocated after `tr1`: the total ever pushed to the
recipient plus the total ever pushed to the sender for that stream,
plus its final remaining balance, equals the deposit recorded at (and
never changed since) creation.  Reverted transactions leave the state
unchanged, so arbitrary lists of attempted transactions cover every
reachable sequence of operations. -/
theorem c2_stream_conservation (a : Nat) (tr1 tr2 : List (Nat × Act))
    (id : Nat) (h : id < (run (initState a) tr1).nextStreamId) :
    (run (run (initState a) tr1) tr2).paidToRecipient id +
      (run (run (initState a) tr1) tr2).paidToSender id +
      ((run (run (initState a) tr1) tr2).streams id).remaining =
      ((run (initState a) tr1).streams id).deposit := by
  have hp := run_preserves (run (initState a) tr1) tr2
  have hInv := hp.1 (inv_run a tr1)
  have hdep := hp.2.2 id h
  rw [← hdep]
  exact hInv.2.2 id

/-- Witness for C2: deposit 1000 streamed over [0,100]; after a
maximal withdrawal at time 40 the recipient has been paid 400 and
600 remains, summing to the deposit. -/
theorem c2_stream_conservation_witness :
    (run (run (initState 1000) [(0, .create 1 2 1000 5 0 100 true)])
        [(40, .withdraw 2 1 0)]).paidToRecipient 1 +
      (run (run (initState 1000) [(0, .create 1 2 1000 5 0 100 true)])
        [(40, .withdraw 2 1 0)]).paidToSender 1 +
      ((run (run (initState 1000) [(0, .create 1 2 1000 5 0 100 true)])
        [(40, .withdraw 2 1 0)]).streams 1).remaining =
      ((run (initState 1000)
          [(0, .create 1 2 1000 5 0 100 true)]).streams 1).deposit :=
  c2_stream_conservation 1000 [(0, .create 1 2 1000 5 0 100 true)]
    [(40, .withdraw 2 1 0)] 1 (by decide)

/-- Claim C10.  A stream id never allocated by a successful creation
(ids are handed out consecutively from 1, so these are exactly id 0 and
the ids at or above the current counter) holds the all-zero default
record in every reachable state: the withdrawable query returns 0
without failing, and `getStreamBasicInfo` returns zero identifiers,
zero deposit, zero remaining and an inactive flag. -/
theorem c10_unassigned_ids_default (a : Nat) (tr : List (Nat × Act))
    (id now : Nat)
    (h : id = 0 ∨ (run (initState a) tr).nextStreamId ≤ id) :
    withdrawableAmount (run (initState a) tr) id now = some 0 ∧
    getStreamBasicInfo (run (initState a) tr) id = (0, 0, 0, 0, 0, false) := by
  have hs := ((inv_run a tr).2.1 id h).1
  constructor
  · simp [withdrawableAmount, hs, defaultStream]
  · simp [getStreamBasicInfo, hs, defaultStream]

/-- Witness for C10: id 5 was never allocated in a trace that created
only stream 1. -/
theorem c10_unassigned_ids_default_witness :
    withdrawableAmount
      (run (initState 1000) [(0, .create 1 2 1000 5 0 100 true)]) 5 3 =
      some 0 ∧
    getStreamBasicInfo
      (run (initState 1000) [(0, .create 1 2 1000 5 0 100 true)]) 5 =
      (0, 0, 0, 0, 0, false) :=
  c10_unassigned_ids_default 1000 [(0, .create 1 2 1000 5 0 100 true)] 5 3
    (by decide)

/-- Claim C1 (code bug).  The source of `_cancelStream` writes
`stream.isActive = false` to storage before computing
`recipientAmount = withdrawableAmount(streamId)`, and
`withdrawableAmount` returns 0 on an inactive record; so cancel always
pays 0 to the recipient and refunds the whole remaining balance to the
sender, even when the withdrawable amount just before the call was
positive.  Concretely: deposit 1000 over window [0,100], cancelled by
the sender at time 40, where withdrawable = 400: the claim asks for 400
to the recipient and 600 to the sender, the code pays 0 and 1000. -/
theorem c1_cancel_pays_recipient_zero :
    (withdrawableAmount
      (applyAct (initState 1000) 0 (.create 1 2 1000 5 0 100 true))
      1 40 = some 400) ∧
    ((applyAct (applyAct (initState 1000) 0 (.create 1 2 1000 5 0 100 true))
        40 (.cancel 1 1)).paidToRecipient 1 = 0) ∧
    ((applyAct (applyAct (initState 1000) 0 (.create 1 2 1000 5 0 100 true))
        40 (.cancel 1 1)).paidToSender 1 = 1000) ∧
    ((applyAct (applyAct (initState 1000) 0 (.create 1 2 1000 5 0 100 true))
        40 (.cancel 1 1)).streams 1).remaining = 0 ∧
    ((applyAct (applyAct (initState 1000) 0 (.create 1 2 1000 5 0 100 true))
        40 (.cancel 1 1)).streams 1).isActive = false := by
  decide

/-- Claim C3 (code bug).  A stream terminated by a withdrawal at its
stop time with rounding dust left (deposit 1003 over 100 seconds, rate
10: the final withdrawal pays 1000 and deactivates with remaining = 3)
can be reactivated by the sender through `resumeStream`, whose only
checks are inactivity, sender and `remaining > 0`; a later cancel then
moves the dust.  So termination is not absorbing. -/
theorem c3_terminated_stream_reanimated :
    ((run (initState 1000)
        [(0, .create 1 2 1003 5 0 100 true),
         (100, .withdraw 2 1 0)]).streams 1).isActive = false ∧
    ((run (initState 1000)
        [(0, .create 1 2 1003 5 0 100 true),
         (100, .withdraw 2 1 0)]).streams 1).remaining = 3 ∧
    ((run (initState 1000)
        [(0, .create 1 2 1003 5 0 100 true), (100, .withdraw 2 1 0),
         (150, .resume 1 1)]).streams 1).isActive = true ∧
    ((run (initState 1000)
        [(0, .create 1 2 1003 5 0 100 true), (100, .withdraw 2 1 0),
         (150, .resume 1 1), (251, .cancel 1 1)]).paidToSender 1 = 3 ∧
     ((run (initState 1000)
        [(0, .create 1 2 1003 5 0 100 true), (100, .withdraw 2 1 0),
         (150, .resume 1 1), (251, .cancel 1 1)]).streams 1).remaining = 0) := by
  decide

/-- Claim C4 (code bug).  Pause at time 40 of a deposit-1000 stream
over [0,100] settles 400 to the recipient; an immediate resume by the
sender restores window [40,100] and the rate is preserved, but the
withdrawable query at the resume instant reverts on checked-subtraction
underflow (earned restarts at 0 while deposit - remaining = 400)
instead of matching the value at the pause instant. -/
theorem c4_pause_resume_withdrawable_reverts :
    (withdrawableAmount
      (applyAct (initState 1000) 0 (.create 1 2 1000 5 0 100 true))
      1 40 = some 400) ∧
    ((run (initState 1000)
        [(0, .create 1 2 1000 5 0 100 true), (40, .pause 1 1),
         (40, .resume 1 1)]).streams 1).ratePerSecond = 10 ∧
    ((run (initState 1000)
        [(0, .create 1 2 1000 5 0 100 true), (40, .pause 1 1),
         (40, .resume 1 1)]).streams 1).isActive = true ∧
    withdrawableAmount
      (run (initState 1000)
        [(0, .create 1 2 1000 5 0 100 true), (40, .pause 1 1),
         (40, .resume 1 1)]) 1 40 = none := by
  decide

/-- Claim C5 (code bug).  A state reachable through the public
operations (create deposit 1000 over [0,100]; pause at 40, which pays
400; resume by the sender at 50) has an active stream whose
withdrawable query at time 55 hits the checked subtraction
`withdrawable - (deposit - remaining)` with 50 < 400 and reverts: the
vested amount is below the already-disbursed amount. -/
theorem c5_withdrawable_underflow_reachable :
    ((run (initState 1000)
        [(0, .create 1 2 1000 5 0 100 true), (40, .pause 1 1),
         (50, .resume 1 1)]).streams 1).isActive = true ∧
    withdrawableAmount
      (run (initState 1000)
        [(0, .create 1 2 1000 5 0 100 true), (40, .pause 1 1),
         (50, .resume 1 1)]) 1 55 = none := by
  decide

/-- Claim C8.  A `withdrawFromStream` transaction (successful or not)
never changes the withdrawn stream record apart from `remaining` and
`isActive`: `sender`, `recipient`, `tokenAddress`, `deposit`,
`startTime`, `stopTime` and `ratePerSecond` are exactly as before the
call, for every stream id. -/
theorem c8_withdraw_frame (s : State) (now caller streamId amount id : Nat) :
    (((applyAct s now (.withdraw caller streamId amount)).streams id).sender
        = (s.streams id).sender) ∧
    (((applyAct s now (.withdraw caller streamId amount)).streams id).recipient
        = (s.streams id).recipient) ∧
    (((applyAct s now (.withdraw caller streamId amount)).streams id).tokenAddress
        = (s.streams id).tokenAddress) ∧
    (((applyAct s now (.withdraw caller streamId amount)).streams id).deposit
        = (s.streams id).deposit) ∧
    (((applyAct s now (.withdraw caller streamId amount)).streams id).startTime
        = (s.streams id).startTime) ∧
    (((applyAct s now (.withdraw caller streamId amount)).streams id).stopTime
        = (s.streams id).stopTime) ∧
    (((applyAct s now (.withdraw caller streamId amount)).streams id).ratePerSecond
        = (s.streams id).ratePerSecond) := by
  simp only [applyAct]
  cases hop : withdrawFromStream s now caller streamId amount with
  | ok s2 =>
    exact withdrawFromStreamCore_frame s now streamId caller amount s2 hop id
  | error e => exact ⟨rfl, rfl, rfl, rfl, rfl, rfl, rfl⟩

/-- Claim C6.  `createStream` succeeds exactly when the recipient is
nonzero, not the contract, not the sender, the deposit is positive, the
window is valid and at least one token per second is deposited, and the
ERC20 pull succeeds; the stored record then has the floor-division
rate, at least 1, full remaining balance and the active flag. -/
theorem c6_create_validation (s : State) (now caller recipient deposit tok
    startTime stopTime : Nat) (pullOk : Bool) :
    ((∃ r, createStream s now caller recipient deposit tok startTime
        stopTime pullOk = .ok r) ↔
      (¬ recipient = 0 ∧ ¬ recipient = s.thisAddr ∧ ¬ recipient = caller ∧
       0 < deposit ∧ now ≤ startTime ∧ startTime < stopTime ∧
       stopTime - startTime ≤ deposit ∧ pullOk = true)) ∧
    (∀ s2 retId, createStream s now caller recipient deposit tok startTime
        stopTime pullOk = .ok (s2, retId) →
      (s2.streams retId).ratePerSecond = deposit / (stopTime - startTime) ∧
      1 ≤ (s2.streams retId).ratePerSecond ∧
      (s2.streams retId).remaining = deposit ∧
      (s2.streams retId).isActive = true) := by
  constructor
  · constructor
    · rintro ⟨r, hr⟩
      simp only [createStream, createStreamCore] at hr
      split_ifs at hr with h1 h2 h3 h4 h5 h6 h7 h8
      exact ⟨h1, h2, h3, by omega, by omega, h6, by omega, by simpa using h8⟩
    · rintro ⟨h1, h2, h3, h4, h5, h6, h7, h8⟩
      exact ⟨_, createStreamCore_ok_of_valid s now caller recipient deposit
        tok startTime stopTime pullOk h1 h2 h3 h4 h5 h6 h7 h8⟩
  · intro s2 retId hok
    simp only [createStream, createStreamCore] at hok
    split_ifs at hok with h1 h2 h3 h4 h5 h6 h7 h8
    injection hok with h9
    injection h9 with h9a h9b
    subst h9a
    subst h9b
    have hdiv : 1 ≤ deposit / (stopTime - startTime) :=
      (Nat.one_le_div_iff (by omega)).mpr (by omega)
    refine ⟨by simp [pointUpd], ?_, by simp [pointUpd], by simp [pointUpd]⟩
    simpa [pointUpd] using hdiv

/-- Witness for C6: a valid creation request (deposit 1000 over
[0,100], distinct parties, successful pull) does succeed. -/
theorem c6_create_validation_witness :
    ∃ r, createStream (initState 1000) 0 1 2 1000 5 0 100 true = .ok r :=
  (c6_create_validation (initState 1000) 0 1 2 1000 5 0 100 true).1.mpr
    (by decide)

/-- Claim C7.  For an active stream whose withdrawable amount at `now`
is `w` (the query succeeding), a withdrawal by the recipient:
fails with `NothingToWithdraw` exactly when `w = 0`; a request of
amount 0 withdraws exactly `w`; a nonzero request above `w` fails with
`AmountExceedsWithdrawable`; and a nonzero request of at most `w`
withdraws exactly that amount, decrementing `remaining` by it and
paying it to the recipient. -/
theorem c7_withdraw_cases (s : State) (now streamId caller amount w : Nat)
    (hact : (s.streams streamId).isActive = true)
    (hcaller : (s.streams streamId).recipient = caller)
    (hw : withdrawableAmount s streamId now = some w) :
    (w = 0 → withdrawFromStream s now caller streamId amount =
        .error .nothingToWithdraw) ∧
    (¬ w = 0 → amount = 0 → ∃ s2,
        withdrawFromStream s now caller streamId amount = .ok s2 ∧
        (s2.streams streamId).remaining =
          (s.streams streamId).remaining - w ∧
        s2.paidToRecipient streamId = s.paidToRecipient streamId + w) ∧
    (¬ w = 0 → ¬ amount = 0 → w < amount →
        withdrawFromStream s now caller streamId amount =
          .error .amountExceedsWithdrawable) ∧
    (¬ w = 0 → ¬ amount = 0 → amount ≤ w → ∃ s2,
        withdrawFromStream s now caller streamId amount = .ok s2 ∧
        (s2.streams streamId).remaining =
          (s.streams streamId).remaining - amount ∧
        s2.paidToRecipient streamId =
          s.paidToRecipient streamId + amount) := by
  have hle := withdrawableAmount_le_remaining s streamId now w hw
  refine ⟨?_, ?_, ?_, ?_⟩
  · intro hw0
    subst hw0
    simp [withdrawFromStream, withdrawFromStreamCore, hact, hcaller, hw]
  · intro hw0 hamt
    subst hamt
    have hs : sub? (s.streams streamId).remaining w =
        some ((s.streams streamId).remaining - w) := sub?_of_le hle
    refine ⟨{ s with
        streams := pointUpd s.streams streamId
          { s.streams streamId with
              remaining := (s.streams streamId).remaining - w
              isActive := if (s.streams streamId).stopTime ≤ now ∨
                  (s.streams streamId).remaining - w = 0 then false
                else (s.streams streamId).isActive }
        paidToRecipient := pointUpd s.paidToRecipient streamId
          (s.paidToRecipient streamId + w) }, ?_, ?_, ?_⟩
    · simp [withdrawFromStream, withdrawFromStreamCore, hact, hcaller, hw,
        hw0, hs]
    · simp [pointUpd]
    · simp [pointUpd]
  · intro hw0 hamt hgt
    have hnle : ¬ (amount ≤ w) := by omega
    simp [withdrawFromStream, withdrawFromStreamCore, hact, hcaller, hw,
      hw0, hamt, hnle]
  · intro hw0 hamt hamtle
    have hs : sub? (s.streams streamId).remaining amount =
        some ((s.streams streamId).remaining - amount) :=
      sub?_of_le (Nat.le_trans hamtle hle)
    refine ⟨{ s with
        streams := pointUpd s.streams streamId
          { s.streams streamId with
              remaining := (s.streams streamId).remaining - amount
              isActive := if (s.streams streamId).stopTime ≤ now ∨
                  (s.streams streamId).remaining - amount = 0 then false
                else (s.streams streamId).isActive }
        paidToRecipient := pointUpd s.paidToRecipient streamId
          (s.paidToRecipient streamId + amount) }, ?_, ?_, ?_⟩
    · simp [withdrawFromStream, withdrawFromStreamCore, hact, hcaller, hw,
        hw0, hamt, hamtle, hs]
    · simp [pointUpd]
    · simp [pointUpd]

/-- Witness for C7: on the deposit-1000 stream over [0,100] at time 40
(withdrawable 400), a maximal withdrawal by the recipient succeeds,
leaving 600 and paying 400. -/
theorem c7_withdraw_cases_witness :
    ∃ s2, withdrawFromStream
        (applyAct (initState 1000) 0 (.create 1 2 1000 5 0 100 true))
        40 2 1 0 = .ok s2 ∧
      (s2.streams 1).remaining =
        ((applyAct (initState 1000) 0
          (.create 1 2 1000 5 0 100 true)).streams 1).remaining - 400 ∧
      s2.paidToRecipient 1 =
        (applyAct (initState 1000) 0
          (.create 1 2 1000 5 0 100 true)).paidToRecipient 1 + 400 :=
  (c7_withdraw_cases
      (applyAct (initState 1000) 0 (.create 1 2 1000 5 0 100 true))
      40 1 2 0 400 (by decide) (by decide) (by decide)).2.1
    (by decide) rfl

/-- Claim C9.  For an otherwise-valid creation request by a delegate
(nonzero, so that the grant itself is accepted): `createStreamOnBehalf`
fails with the unauthorized error while no grant
(sender, delegate, CreateOnBehalf) is set; after
`authorizeDelegate(delegate, CreateOnBehalf)` by the sender the
identical call succeeds; and after a subsequent
`revokeDelegate(delegate, CreateOnBehalf)` it fails again. -/
theorem c9_create_on_behalf_delegation (s : State) (now sender delegate
    recipient deposit tok startTime stopTime : Nat) (pullOk : Bool)
    (hd : ¬ delegate = 0)
    (h1 : ¬ recipient = 0) (h2 : ¬ recipient = s.thisAddr)
    (h3 : ¬ recipient = sender) (h4 : 0 < deposit) (h5 : now ≤ startTime)
    (h6 : startTime < stopTime) (h7 : stopTime - startTime ≤ deposit)
    (h8 : pullOk = true) :
    (s.delegateAuths sender delegate createStreamOnBehalfSelector = false →
      createStreamOnBehalf s now delegate sender recipient deposit tok
        startTime stopTime pullOk = .error .notAuthorized) ∧
    (∃ r, createStreamOnBehalf
        (applyAct s now (.auth sender delegate createStreamOnBehalfSelector))
        now delegate sender recipient deposit tok startTime stopTime pullOk
        = .ok r) ∧
    createStreamOnBehalf
      (applyAct
        (applyAct s now (.auth sender delegate createStreamOnBehalfSelector))
        now (.revoke sender delegate createStreamOnBehalfSelector))
      now delegate sender recipient deposit tok startTime stopTime pullOk
      = .error .notAuthorized := by
  have hs1 : applyAct s now (.auth sender delegate
      createStreamOnBehalfSelector) = { s with
        delegateAuths := setAuth s.delegateAuths sender delegate
          createStreamOnBehalfSelector true } := by
    simp [applyAct, authorizeDelegate, hd]
  refine ⟨?_, ?_, ?_⟩
  · intro h0
    simp [createStreamOnBehalf, isAuthorizedDelegate, h0]
  · rw [hs1]
    have hauth : isAuthorizedDelegate { s with
        delegateAuths := setAuth s.delegateAuths sender delegate
          createStreamOnBehalfSelector true }
        sender delegate createStreamOnBehalfSelector = true := by
      simp [isAuthorizedDelegate, setAuth]
    have hok := createStreamCore_ok_of_valid
      { s with
        delegateAuths :=
          setAuth s.delegateAuths sender delegate
            createStreamOnBehalfSelector true }
      now sender recipient deposit tok startTime stopTime pullOk
      h1 h2 h3 h4 h5 h6 h7 h8
    exact ⟨_, by
      rw [createStreamOnBehalf_of_auth _ _ _ _ _ _ _ _ _ _ hauth]
      exact hok⟩
  · rw [hs1]
    have hrev : isAuthorizedDelegate
        (applyAct { s with
          delegateAuths := setAuth s.delegateAuths sender delegate
            createStreamOnBehalfSelector true }
          now (.revoke sender delegate createStreamOnBehalfSelector))
        sender delegate createStreamOnBehalfSelector = false := by
      simp [applyAct, revokeDelegate, isAuthorizedDelegate, setAuth]
    simp [createStreamOnBehalf, hrev]

/-- Witness for C9 at a concrete deployment: sender 1, delegate 3,
recipient 2, deposit 1000 over [0,100]. -/
theorem c9_create_on_behalf_delegation_witness :
    ((initState 1000).delegateAuths 1 3 createStreamOnBehalfSelector
        = false →
      createStreamOnBehalf (initState 1000) 0 3 1 2 1000 5 0 100 true
        = .error .notAuthorized) ∧
    (∃ r, createStreamOnBehalf
        (applyAct (initState 1000) 0
          (.auth 1 3 createStreamOnBehalfSelector))
        0 3 1 2 1000 5 0 100 true = .ok r) ∧
    createStreamOnBehalf
      (applyAct
        (applyAct (initState 1000) 0
          (.auth 1 3 createStreamOnBehalfSelector))
        0 (.revoke 1 3 createStreamOnBehalfSelector))
      0 3 1 2 1000 5 0 100 true = .error .notAuthorized :=
  c9_create_on_behalf_delegation (initState 1000) 0 1 3 2 1000 5 0 100 true
    (by decide) (by decide) (by decide) (by decide) (by decide) (by decide)
    (by decide) (by decide) (by decide)

end StreamPay
